import Mathlib

/-
Verification of the pafaders application registry and device protocol.

The development shallowly embeds the Python sources:
  * `src/pafaders/applications.py` — the `Application` entity and the
    `Applications` registry (slot table, reconciliation, volume and
    playback commands);
  * `pafaders/midi.py` — the `RemoteZeroSLListener` inbound decoder and
    display rendering.

Modelling conventions:
  * Python object references are modelled by an arena (`heap : List
    Application`) indexed by `Nat` ids; the slot table and the index maps
    hold ids, so aliasing and shared mutation are explicit.
  * Python dicts are insertion-ordered association lists; Python sets are
    first-occurrence-deduplicated lists.
  * Fallible external reads (DBus identity, playback status) are a pure
    environment `World`; a failed read is `Option.none`.
  * Code that can raise an uncaught exception is `Except Unit`-valued;
    `.error ()` marks the exception escaping the function.
  * Side effects on the mixer or on a media session are reified as a
    `List Call` result instead of being performed.
  * Python float arithmetic on volume levels is modelled with `Rat`.
-/

namespace Pafaders

/-- Playback states reported by an MPRIS player (the `PlaybackStatus` enum
in `applications.py`). The Python code uses `None` for a missing or failed
read, modelled here as `Option.none` around this type. -/
inductive PlaybackStatus
  | playing
  | paused
  | stopped
deriving DecidableEq, Repr

/-- One PulseAudio sink input as the registry sees it: the stable integer
index and the two proplist entries the code reads
(`proplist["application.name"]` and `proplist["media.name"]`). -/
structure SinkInput where
  index : Nat
  appName : String
  mediaName : String
deriving DecidableEq, Repr

/-- The concrete Python class of an `Application` object: the fallback
`Application` class or one of its three subclasses (`Firefox`,
`Rhythmbox`, `Spotify`). `identity()` uses `self.__class__.__name__`, so
the kind is part of an identity. -/
inductive Kind
  | generic
  | firefox
  | rhythmbox
  | spotify
deriving DecidableEq, Repr

/-- External world: results of the fallible DBus reads. `identityOf uri`
is the `mpris_app.Identity` read (`none` = `DBusException`), `statusOf
uri` the `mpris_player.PlaybackStatus` read (`none` = `DBusException`). -/
structure World where
  identityOf : String → Option String
  statusOf : String → Option PlaybackStatus

/-- Insert into a Python-set model: append unless already present. -/
def insertNew (x : String) (xs : List String) : List String :=
  if x ∈ xs then xs else xs ++ [x]

/-- Model of a Python set comprehension over a list of strings: the
distinct elements in first-occurrence order. Iteration order of a real
Python set is arbitrary; no claim below depends on which element
`set.pop()` returns, only on whether the set is empty or a singleton. -/
def distinctList (xs : List String) : List String :=
  xs.foldl (fun acc x => insertNew x acc) []

/-- Python dict assignment `d[k] = v`: overwrite in place if the key
exists (keeping its position), else append. -/
def dictInsert {α β : Type} [DecidableEq α] (k : α) (v : β) :
    List (α × β) → List (α × β)
  | [] => [(k, v)]
  | (k0, v0) :: rest =>
    if k0 = k then (k, v) :: rest else (k0, v0) :: dictInsert k v rest

/-- One `Application` object from `applications.py`. `mpris_app` and
`mpris_player` hold the player URI the two MPRIS handles were built from
(`none` = the attribute is Python `None`). -/
structure Application where
  kind : Kind
  pa_sink_inputs : List SinkInput
  active_sink_inputs : List (Nat × SinkInput)
  mpris_app : Option String
  mpris_player : Option String
  cached_mpris_identity : Option String
deriving DecidableEq, Repr

instance : Inhabited Application :=
  ⟨{ kind := .generic, pa_sink_inputs := [], active_sink_inputs := [],
     mpris_app := none, mpris_player := none, cached_mpris_identity := none }⟩

/-- `Firefox.handles_pa_sink_input` / `Rhythmbox...` / `Spotify...`; the
base class returns `False`. -/
def handles_pa_sink_input (k : Kind) (si : SinkInput) : Bool :=
  match k with
  | .generic => false
  | .firefox => si.appName == "Firefox"
  | .rhythmbox => si.appName == "Rhythmbox"
  | .spotify => si.appName == "spotify"

/-- `handles_mpris_player_uri` of each class; `Firefox` inherits the base
class `False`. -/
def handles_mpris_player_uri (k : Kind) (uri : String) : Bool :=
  match k with
  | .rhythmbox => uri == "org.mpris.MediaPlayer2.rhythmbox"
  | .spotify => uri == "org.mpris.MediaPlayer2.spotify"
  | _ => false

/-- `Application.get(pa_sink_input=si)`: scan the subclasses in definition
order (`Firefox`, `Rhythmbox`, `Spotify`) for one that handles the sink
input; fall back to the base class. -/
def classifySinkInput (si : SinkInput) : Kind :=
  if handles_pa_sink_input .firefox si then .firefox
  else if handles_pa_sink_input .rhythmbox si then .rhythmbox
  else if handles_pa_sink_input .spotify si then .spotify
  else .generic

/-- `Application.get(mpris_player_uri=uri)`: same scan through
`handles_mpris_player_uri`. -/
def classifyPlayerUri (uri : String) : Kind :=
  if handles_mpris_player_uri .rhythmbox uri then .rhythmbox
  else if handles_mpris_player_uri .spotify uri then .spotify
  else .generic

namespace Application

/-- `Application.add_sink_input`: append to `pa_sink_inputs` and record in
the `active_sink_inputs` dict. -/
def add_sink_input (a : Application) (si : SinkInput) : Application :=
  { a with pa_sink_inputs := a.pa_sink_inputs ++ [si],
           active_sink_inputs := dictInsert si.index si a.active_sink_inputs }

/-- `Application.get(pa_sink_input=si)` followed by `__init__`, which
calls `add_sink_input` on the fresh object. -/
def mkFromSinkInput (si : SinkInput) : Application :=
  add_sink_input
    { kind := classifySinkInput si, pa_sink_inputs := [],
      active_sink_inputs := [], mpris_app := none, mpris_player := none,
      cached_mpris_identity := none }
    si

/-- `Application.add_player_uri`: construct the `MediaPlayer2` and
`Player` handles for the URI. -/
def add_player_uri (a : Application) (uri : String) : Application :=
  { a with mpris_app := some uri, mpris_player := some uri }

/-- `Application.get(mpris_player_uri=uri)` followed by `__init__`. -/
def mkFromPlayerUri (uri : String) : Application :=
  add_player_uri
    { kind := classifyPlayerUri uri, pa_sink_inputs := [],
      active_sink_inputs := [], mpris_app := none, mpris_player := none,
      cached_mpris_identity := none }
    uri

/-- `Application.remove_sink_input_index`: `del self.active_sink_inputs[index]`
with `KeyError` caught and logged, so a missing key leaves the state
unchanged; `pa_sink_inputs` is untouched. -/
def remove_sink_input_index (a : Application) (i : Nat) : Application :=
  { a with active_sink_inputs := a.active_sink_inputs.filter (fun p => p.1 != i) }

/-- `Application.remove_player`: drop both MPRIS handles. The cached
identity is kept. -/
def remove_player (a : Application) : Application :=
  { a with mpris_app := none, mpris_player := none }

/-- `Application.active`: at least one entry in `active_sink_inputs` or a
`mpris_player` handle. -/
def active (a : Application) : Bool :=
  !a.active_sink_inputs.isEmpty || a.mpris_player.isSome

/-- Value returned by `Application.mpris_identity` when `mpris_app` was
built from `uri` and the cache held `cache`: a successful `Identity` read
refreshes the cache and is returned, a `DBusException` leaves the cache
to be returned (it is `None` if no read ever succeeded). -/
def mprisIdentityRead (w : World) (uri : String) (cache : Option String) :
    Option String :=
  match w.identityOf uri with
  | some s => some s
  | none => cache

/-- `Application.name`. `.error ()` models the uncaught `KeyError` that
`app_names.pop()` raises on an empty set; `.ok none` models returning
Python `None` (a stale-cache miss). When several app names exist the
source pops an arbitrary set element; we return the first. -/
def name (w : World) (a : Application) : Except Unit (Option String) :=
  match a.mpris_app with
  | some uri => .ok (mprisIdentityRead w uri a.cached_mpris_identity)
  | none =>
    match distinctList (a.pa_sink_inputs.map SinkInput.appName),
          distinctList (a.pa_sink_inputs.map SinkInput.mediaName) with
    | [an], [mn] => .ok (some (an ++ " : " ++ mn))
    | [], _ => .error ()
    | an :: _, _ => .ok (some an)

/-- `Application.identity`: `(self.__class__.__name__, self.name())`;
propagates the exception `name()` can raise. -/
def identity (w : World) (a : Application) : Except Unit (Kind × Option String) :=
  (a.name w).map (fun n => (a.kind, n))

/-- `Application.may_replace_app`: identity comparison, propagating the
exceptions either `identity()` call can raise. -/
def may_replace_app (w : World) (a other : Application) : Except Unit Bool := do
  let i ← a.identity w
  let j ← other.identity w
  pure (decide (i = j))

/-- `Application.wants_sink_input` of the base class: delegate to the
class-level `handles_pa_sink_input`. -/
def wants_sink_input (a : Application) (si : SinkInput) : Bool :=
  handles_pa_sink_input a.kind si

/-- `Application.wants_player_uri`. -/
def wants_player_uri (a : Application) (uri : String) : Bool :=
  handles_mpris_player_uri a.kind uri

/-- `Application.playback_status`: `None` without a player handle or on a
`DBusException`, else the read status. -/
def playback_status (w : World) (a : Application) : Option PlaybackStatus :=
  match a.mpris_player with
  | none => none
  | some uri => w.statusOf uri

end Application

/-- External calls the registry can make on behalf of an application. -/
inductive Call
  | mixerSetVolume (streamIndex : Nat) (volume : Rat)
  | mprisSetVolume (uri : String) (volume : Rat)
  | mprisPlayPause (uri : String)
  | mprisPlay (uri : String)
  | mprisPause (uri : String)
deriving DecidableEq, Repr

namespace Application

/-- `Application.set_pa_volume`: one mixer call per active sink input. -/
def set_pa_volume (a : Application) (volume : Rat) : List Call :=
  a.active_sink_inputs.map (fun p => .mixerSetVolume p.1 volume)

/-- `Application.set_mpris_volume` (only reached with a player handle). -/
def set_mpris_volume (a : Application) (volume : Rat) : List Call :=
  match a.mpris_player with
  | some uri => [.mprisSetVolume uri volume]
  | none => []

/-- `Application.set_volume`: route to the media session when a player
handle exists, else to the mixer streams. `Spotify.set_volume` overrides
this to always use the mixer path. -/
def set_volume_calls (a : Application) (volume : Rat) : List Call :=
  match a.kind with
  | .spotify => a.set_pa_volume volume
  | _ =>
    if a.mpris_player.isSome then a.set_mpris_volume volume
    else a.set_pa_volume volume

/-- `Application.play_or_pause`: no-op without a player handle. -/
def play_or_pause_calls (a : Application) : List Call :=
  match a.mpris_player with
  | some uri => [.mprisPlayPause uri]
  | none => []

/-- `Application.play`. -/
def play_calls (a : Application) : List Call :=
  match a.mpris_player with
  | some uri => [.mprisPlay uri]
  | none => []

/-- `Application.pause`. -/
def pause_calls (a : Application) : List Call :=
  match a.mpris_player with
  | some uri => [.mprisPause uri]
  | none => []

end Application

/-
Device driver (`pafaders/midi.py`, `RemoteZeroSLListener`): inbound
control-change decoding and display rendering.
-/

/-- `CONTROL_CHANGE` from `rtmidi.midiconstants`. -/
def CONTROL_CHANGE : Nat := 0xB0

/-- `SYSTEM_EXCLUSIVE` from `rtmidi.midiconstants`. -/
def SYSTEM_EXCLUSIVE : Nat := 0xF0

/-- `END_OF_EXCLUSIVE` from `rtmidi.midiconstants`. -/
def END_OF_EXCLUSIVE : Nat := 0xF7

/-- `CHAN_16_CC = CONTROL_CHANGE | 0xF`. -/
def CHAN_16_CC : Nat := CONTROL_CHANGE ||| 0xF

/-- `FADERS = list(range(16, 24))`: the control numbers of the eight
faders. -/
def FADERS : List Nat := List.range' 16 8

/-- `PLAY = 75`: the control number of the play button. -/
def PLAY : Nat := 75

/-- `AUTOMAP_ENGAGE_SYSEX`: `SYSEX_PREFIX + [0x10, 0x05, PID, 0x00, 0x01,
0x01, END_OF_EXCLUSIVE]` with the manufacturer id `00 20 29`, the model
bytes `03 03` and `PID = 0x02`. -/
def AUTOMAP_ENGAGE_SYSEX : List Nat :=
  [SYSTEM_EXCLUSIVE, 0x00, 0x20, 0x29, 0x03, 0x03,
   0x10, 0x05, 0x02, 0x00, 0x01, 0x01, END_OF_EXCLUSIVE]

/-- Observable outcome of one inbound MIDI message in
`RemoteZeroSLListener.callback`. -/
inductive MidiAction
  | volumeSet (app : Nat) (volume : Rat)
  | playPause
  | displayRefresh
  | noAction
  | unpackError
deriving DecidableEq, Repr

/-- `RemoteZeroSLListener.callback`: on a channel-16 control change,
control numbers in `FADERS` become a volume-set for slot
`control - FADERS[0]` at level `value / 127.0`; `PLAY` with value exactly
1 becomes an argument-less play-or-pause; anything else on that status is
ignored. The echoed engage SysEx triggers a display refresh.
`unpackError` models the `ValueError` from unpacking `octets[1:]` when a
channel-16 status byte is not followed by exactly two bytes (and the
`IndexError` of `octets[0]` on an empty message). -/
def callbackDecode (octets : List Nat) : MidiAction :=
  match octets with
  | [] => .unpackError
  | status :: rest =>
    if status = CHAN_16_CC then
      match rest with
      | [control, value] =>
        if FADERS.contains control then
          .volumeSet (control - FADERS.headD 0) ((value : Rat) / 127)
        else if control = PLAY ∧ value = 1 then .playPause
        else .noAction
      | _ => .unpackError
    else if octets = AUTOMAP_ENGAGE_SYSEX then .displayRefresh
    else .noAction

/-- Python `f"{s:<8}"`: pad on the right with blanks to width 8 (strings
modelled as character lists). -/
def ljust8 (s : List Char) : List Char :=
  s ++ List.replicate (8 - s.length) ' '

/-- Python `f"{s:^8}"`: centre in width 8, extra blank on the right. -/
def center8 (s : List Char) : List Char :=
  List.replicate ((8 - s.length) / 2) ' ' ++ s
    ++ List.replicate ((8 - s.length) - (8 - s.length) / 2) ' '

/-- The `value` strings of the `PlaybackStatus` enum members. -/
def statusValueText : PlaybackStatus → List Char
  | .playing => "Playing".toList
  | .paused => "Paused".toList
  | .stopped => "Stopped".toList

/-- Name column of one slot in `set_application_list`: the dash
placeholder for an inactive application, else the name sliced to its
first 8 characters and left-justified in width 8
(`f"{app.name()[0:8]:<8}"`). -/
def renderSlotName (activeFlag : Bool) (nm : List Char) : List Char :=
  if activeFlag then ljust8 (nm.take 8) else "--------".toList

/-- Status column of one slot in `set_application_list`: 8 blanks when
the status is `None`, else the status value centred in width 8
(`f"{status.value:^8}"`). -/
def renderSlotStatus : Option PlaybackStatus → List Char
  | none => "        ".toList
  | some st => center8 (statusValueText st)

/-
The `Applications` registry of `applications.py`. Application objects
live in an arena (`heap`); `app_list`, `app_by_sink_input_index` and
`app_by_player_uri` hold arena ids, mirroring the shared Python object
references.
-/

/-- State of one `Applications` registry instance. -/
structure AppsState where
  heap : List Application
  app_list : List Nat
  app_by_sink_input_index : List (Nat × Nat)
  app_by_player_uri : List (String × Nat)
  playback_status_list : List (Option PlaybackStatus)
  playing_app : Option Nat
deriving DecidableEq, Repr

/-- The registry right after `Applications.__init__`. -/
def initialState : AppsState :=
  { heap := [], app_list := [], app_by_sink_input_index := [],
    app_by_player_uri := [], playback_status_list := [], playing_app := none }

/-- Truth value of a Python bound-method object used without calling it:
`app.active` (as opposed to `app.active()`) is an object, and every
method object is truthy. -/
def pyTruthyBoundMethod : Bool := true

/-- First loop of `Applications.add_app`, exactly as written in the
source: find the first slot holding an inactive application that
satisfies the self-comparison `app.may_replace_app(app)` (the existing
app compared with itself, not with the new one). Exceptions raised by
`name()` propagate. -/
def findReplaceSelf (w : World) (heap : List Application) :
    List Nat → Nat → Except Unit (Option Nat)
  | [], _ => .ok none
  | id :: rest, n =>
    let app := heap.getD id default
    if app.active then findReplaceSelf w heap rest (n + 1)
    else do
      let b ← app.may_replace_app w app
      if b then pure (some n) else findReplaceSelf w heap rest (n + 1)

/-- Second loop of `Applications.add_app`: `if not app.active:` tests the
bound method object itself (no call), which is always truthy, so the
search never finds a slot. -/
def findNotActiveAttr : List Nat → Nat → Option Nat
  | [], _ => none
  | _ :: rest, n =>
    if !pyTruthyBoundMethod then some n else findNotActiveAttr rest (n + 1)

namespace AppsState

/-- `Applications.add_app(new_app)`: replace the first slot accepted by
the (self-comparing) replace scan; otherwise, when the list is already
longer than 8, run the dead inactive-slot scan; otherwise append. The
returned flag is the one the source returns. -/
def add_app (w : World) (s : AppsState) (newId : Nat) :
    Except Unit (AppsState × Bool) := do
  match ← findReplaceSelf w s.heap s.app_list 0 with
  | some n => pure ({ s with app_list := s.app_list.set n newId }, false)
  | none =>
    if s.app_list.length > 8 then
      match findNotActiveAttr s.app_list 0 with
      | some n => pure ({ s with app_list := s.app_list.set n newId }, true)
      | none => pure ({ s with app_list := s.app_list ++ [newId] }, true)
    else
      pure ({ s with app_list := s.app_list ++ [newId] }, true)

/-- Loop head of `Applications.add_sink_input`: first application in
`app_list` that wants the sink input. -/
def findWantingSink (heap : List Application) (si : SinkInput) :
    List Nat → Option Nat
  | [] => none
  | id :: rest =>
    if (heap.getD id default).wants_sink_input si then some id
    else findWantingSink heap si rest

/-- `Applications.add_sink_input(sink_input)`: attach to an application
that wants the stream, else create a classified application, record it in
the index map and assign it a slot via `add_app`. -/
def add_sink_input (w : World) (s : AppsState) (si : SinkInput) :
    Except Unit (AppsState × Bool) :=
  match findWantingSink s.heap si s.app_list with
  | some id =>
    pure
      ({ s with
          heap := s.heap.set id ((s.heap.getD id default).add_sink_input si),
          app_by_sink_input_index :=
            dictInsert si.index id s.app_by_sink_input_index },
       false)
  | none =>
    let newId := s.heap.length
    add_app w
      { s with
          heap := s.heap ++ [Application.mkFromSinkInput si],
          app_by_sink_input_index :=
            dictInsert si.index newId s.app_by_sink_input_index }
      newId

/-- Loop head of `Applications.add_player_uri`. -/
def findWantingUri (heap : List Application) (uri : String) :
    List Nat → Option Nat
  | [] => none
  | id :: rest =>
    if (heap.getD id default).wants_player_uri uri then some id
    else findWantingUri heap uri rest

/-- `Applications.add_player_uri(player_uri)`. -/
def add_player_uri (w : World) (s : AppsState) (uri : String) :
    Except Unit (AppsState × Bool) :=
  match findWantingUri s.heap uri s.app_list with
  | some id =>
    pure
      ({ s with
          heap := s.heap.set id ((s.heap.getD id default).add_player_uri uri),
          app_by_player_uri := dictInsert uri id s.app_by_player_uri },
       false)
  | none =>
    let newId := s.heap.length
    add_app w
      { s with
          heap := s.heap ++ [Application.mkFromPlayerUri uri],
          app_by_player_uri := dictInsert uri newId s.app_by_player_uri }
      newId

/-- `Applications.remove_sink_input_index(index)`: pop the index map entry
(`dict.pop` raises `KeyError` on a missing key, uncaught here), detach the
stream from the application, and report whether the application became
inactive. -/
def remove_sink_input_index (s : AppsState) (index : Nat) :
    Except Unit (AppsState × Bool) :=
  match s.app_by_sink_input_index.lookup index with
  | none => .error ()
  | some id =>
    let app1 := (s.heap.getD id default).remove_sink_input_index index
    pure
      ({ s with
          heap := s.heap.set id app1,
          app_by_sink_input_index :=
            s.app_by_sink_input_index.filter (fun p => p.1 != index) },
       !app1.active)

end AppsState

/-- Removal loop of `Applications.update_sink_inputs`: detach every
vanished stream index, accumulating the changed flag. -/
def removeIndicesLoop : List Nat → AppsState → Bool → Except Unit (AppsState × Bool)
  | [], s, changed => pure (s, changed)
  | i :: rest, s, changed => do
    let (s1, c) ← s.remove_sink_input_index i
    removeIndicesLoop rest s1 (changed || c)

/-- Addition loop of `Applications.update_sink_inputs`: every snapshot
stream not yet tracked is added (the return value of `add_sink_input` is
ignored and the changed flag is set, as in the source). -/
def addSinkLoop (w : World) : List SinkInput → AppsState → Bool →
    Except Unit (AppsState × Bool)
  | [], s, changed => pure (s, changed)
  | si :: rest, s, changed =>
    if (s.app_by_sink_input_index.lookup si.index).isSome then
      addSinkLoop w rest s changed
    else do
      let (s1, _) ← s.add_sink_input w si
      addSinkLoop w rest s1 true

namespace AppsState

/-- `Applications.update_sink_inputs` with the polled mixer snapshot as a
parameter: remove vanished indices, add new streams, report change. -/
def update_sink_inputs (w : World) (s : AppsState)
    (sink_inputs : List SinkInput) : Except Unit (AppsState × Bool) := do
  let sink_input_indices := sink_inputs.map SinkInput.index
  let removed_indices :=
    (s.app_by_sink_input_index.map Prod.fst).filter
      (fun i => !sink_input_indices.contains i)
  let (s1, changed) ← removeIndicesLoop removed_indices s false
  addSinkLoop w sink_inputs s1 changed

end AppsState

/-- Removal loop of `Applications.update_media_players`: pop each vanished
URI from the map and drop the MPRIS handles of its application. -/
def removeUrisLoop : List String → AppsState → AppsState
  | [], s => s
  | uri :: rest, s =>
    match s.app_by_player_uri.lookup uri with
    | none => removeUrisLoop rest s
    | some id =>
      removeUrisLoop rest
        { s with
            heap := s.heap.set id ((s.heap.getD id default).remove_player),
            app_by_player_uri :=
              s.app_by_player_uri.filter (fun p => p.1 != uri) }

/-- URI loop of `Applications.update_media_players`: add untracked URIs,
and thread the `first_app` / `first_playing_app` locals. `first_playing_app`
takes the first application whose status differs from `Stopped` (a `None`
status qualifies) and is upgraded to a later `Playing` application while
it is merely `Paused`. `.error ()` models the `KeyError` of `map[uri]`,
which cannot fire since the URI was just added. -/
def uriLoop (w : World) : List String → AppsState → Bool → Option Nat →
    Option Nat → Except Unit (AppsState × Bool × Option Nat × Option Nat)
  | [], s, changed, first_app, first_playing => pure (s, changed, first_app, first_playing)
  | uri :: rest, s, changed, first_app, first_playing => do
    let (s1, changed1) ←
      if (s.app_by_player_uri.lookup uri).isSome then pure (s, changed)
      else do
        let (s2, _) ← s.add_player_uri w uri
        pure (s2, true)
    match s1.app_by_player_uri.lookup uri with
    | none => .error ()
    | some id =>
      let app := s1.heap.getD id default
      let first_app1 := if first_app.isNone then some id else first_app
      let first_playing1 :=
        match first_playing with
        | none =>
          if app.playback_status w ≠ some .stopped then some id else none
        | some fid =>
          if app.playback_status w = some .playing
              ∧ (s1.heap.getD fid default).playback_status w = some .paused
          then some id else some fid
      uriLoop w rest s1 changed1 first_app1 first_playing1

namespace AppsState

/-- `Applications.update_media_players` with the polled URI list as a
parameter. The final comparison against `self.playback_status_list` is
exactly the one in the source: the recomputed list is compared but never
stored back. -/
def update_media_players (w : World) (s : AppsState) (uris : List String) :
    Except Unit (AppsState × Bool) := do
  let removed_uris :=
    (s.app_by_player_uri.map Prod.fst).filter (fun u => !uris.contains u)
  let s1 := removeUrisLoop removed_uris s
  let (s2, changed1, _first_app, first_playing) ←
    uriLoop w uris s1 (!removed_uris.isEmpty) none none
  let s3 :=
    match first_playing with
    | none => s2
    | some fid =>
      match s2.playing_app with
      | none => { s2 with playing_app := some fid }
      | some pid =>
        if (s2.heap.getD fid default).playback_status w = some .playing
            ∧ (s2.heap.getD pid default).playback_status w ≠ some .playing
        then { s2 with playing_app := some fid }
        else s2
  let statuses :=
    s3.app_list.map (fun id => (s3.heap.getD id default).playback_status w)
  pure (s3, if statuses ≠ s3.playback_status_list then true else changed1)

/-- `Applications.check` with the two polled snapshots as parameters. The
returned flag says whether `controller.set_application_list` was called
(the source publishes exactly when either update reported change). -/
def check (w : World) (s : AppsState) (sink_inputs : List SinkInput)
    (uris : List String) : Except Unit (AppsState × Bool) := do
  let (s1, changed0) ← s.update_sink_inputs w sink_inputs
  let (s2, changed1) ← s1.update_media_players w uris
  pure (s2, changed0 || changed1)

/-- `Applications.set_volume(app=..., volume=...)`: an `IndexError` on
`self.app_list[app]` is caught and the call returns silently; otherwise
the guard `if app_instance.active:` tests the bound method object (always
truthy) and the volume call is delegated. The registry state is returned
together with the external calls made. -/
def set_volume (s : AppsState) (app : Nat) (volume : Rat) :
    AppsState × List Call :=
  match s.app_list[app]? with
  | none => (s, [])
  | some id =>
    if pyTruthyBoundMethod then
      (s, (s.heap.getD id default).set_volume_calls volume)
    else (s, [])

/-- Whether control in `Applications.set_volume` reaches the delegated
`app_instance.set_volume(...)` call. -/
def set_volume_delegates (s : AppsState) (app : Nat) : Bool :=
  match s.app_list[app]? with
  | none => false
  | some _ => pyTruthyBoundMethod

end AppsState

/-- Else-branch loop of `Applications.play_or_pause` with an index: play
the selected slot, pause every other slot, in table order. -/
def playPauseLoop (heap : List Application) (target : Nat) :
    List Nat → Nat → List Call
  | [], _ => []
  | id :: rest, n =>
    (if n = target then (heap.getD id default).play_calls
     else (heap.getD id default).pause_calls)
      ++ playPauseLoop heap target rest (n + 1)

namespace AppsState

/-- `Applications.play_or_pause(app=...)`. With no index the source runs
`self.playing_app.play_or_pause()`: when no playing application is
tracked, `self.playing_app` is `None` and the attribute access raises
`AttributeError` (`.error ()`). With an index, `self.app_list[app]` is
indexed without a handler, so an out-of-range index raises `IndexError`
(`.error ()`); otherwise a playing slot is paused and any other slot is
played while all remaining slots are paused. -/
def play_or_pause (w : World) (s : AppsState) (app : Option Nat) :
    Except Unit (List Call) :=
  match app with
  | none =>
    match s.playing_app with
    | none => .error ()
    | some id => pure ((s.heap.getD id default).play_or_pause_calls)
  | some i =>
    match s.app_list[i]? with
    | none => .error ()
    | some id =>
      if (s.heap.getD id default).playback_status w = some .playing then
        pure ((s.heap.getD id default).pause_calls)
      else
        pure (playPauseLoop s.heap i s.app_list 0)

end AppsState

deriving instance DecidableEq for Except

/-
Concrete fixtures used to evaluate the embedded code.
-/

/-- A world in which every DBus read fails. -/
def w0 : World := { identityOf := fun _ => none, statusOf := fun _ => none }

/-- A sink input of the generic application "alpha". -/
def siAlpha : SinkInput := { index := 1, appName := "alpha", mediaName := "m" }

/-- A sink input of the generic application "beta". -/
def siBeta : SinkInput := { index := 2, appName := "beta", mediaName := "m" }

/-- A later sink input with the same names as `siBeta` but a fresh stream
index. -/
def siBetaNew : SinkInput := { index := 5, appName := "beta", mediaName := "m" }

/-- The application created for `siAlpha` after its only stream was
removed: inactive, but still carrying the stream in `pa_sink_inputs`. -/
def appAlphaInactive : Application :=
  { kind := .generic, pa_sink_inputs := [siAlpha], active_sink_inputs := [],
    mpris_app := none, mpris_player := none, cached_mpris_identity := none }

/-- The application created for `siBeta` after its only stream was
removed. Its identity equals that of a new application for `siBetaNew`. -/
def appBetaInactive : Application :=
  { kind := .generic, pa_sink_inputs := [siBeta], active_sink_inputs := [],
    mpris_app := none, mpris_player := none, cached_mpris_identity := none }

/-- The application `Application.get(pa_sink_input=siBetaNew)` creates. -/
def appBetaNew : Application := Application.mkFromSinkInput siBetaNew

/-- Registry state with slot 0 holding the inactive "alpha" application
and slot 1 the inactive "beta" application, at the moment `add_app` is
entered for the freshly created `appBetaNew` (already in the arena and the
stream index map, as `add_sink_input` does before calling `add_app`). -/
def c1State : AppsState :=
  { heap := [appAlphaInactive, appBetaInactive, appBetaNew],
    app_list := [0, 1],
    app_by_sink_input_index := [(5, 2)], app_by_player_uri := [],
    playback_status_list := [], playing_app := none }

/-- A mixer snapshot of nine simultaneously live streams of nine distinct
generic applications. -/
def snap9 : List SinkInput :=
  (List.range 9).map (fun i => { index := i, appName := "app" ++ toString i, mediaName := "m" })

/-- A single mixer stream of a generic application. -/
def si0 : SinkInput := { index := 0, appName := "quodlibet", mediaName := "m" }

/-- Registry state whose only slot holds an inactive application. -/
def c9State : AppsState :=
  { heap := [appBetaInactive], app_list := [0],
    app_by_sink_input_index := [], app_by_player_uri := [],
    playback_status_list := [], playing_app := none }

/-- An application with no backing references at all and no cached
identity: no sink input was ever attached and no media session exists
(for example one created for a media session that vanished before any
successful identity read, after `remove_player`). -/
def noBackingApp : Application :=
  { kind := .generic, pa_sink_inputs := [], active_sink_inputs := [],
    mpris_app := none, mpris_player := none, cached_mpris_identity := none }

/-
Helper lemmas.
-/

theorem insertNew_ne_nil (x : String) (xs : List String) : insertNew x xs ≠ [] := by
  unfold insertNew
  split
  next h => exact List.ne_nil_of_mem h
  next h => simp

theorem foldl_insertNew_ne_nil (xs : List String) (acc : List String)
    (h : acc ≠ []) : xs.foldl (fun acc x => insertNew x acc) acc ≠ [] := by
  induction xs generalizing acc with
  | nil => exact h
  | cons y ys ih => exact ih _ (insertNew_ne_nil y acc)

theorem distinctList_ne_nil (x : String) (xs : List String) :
    distinctList (x :: xs) ≠ [] := by
  unfold distinctList
  simp only [List.foldl_cons]
  exact foldl_insertNew_ne_nil xs _ (insertNew_ne_nil x [])

/-
Claim theorems.
-/

/-- C1 (failing evaluation): slot stability fails. Slot 0 holds the
inactive "alpha" application and slot 1 the inactive "beta" application;
a new application whose identity equals the one in slot 1 is nevertheless
placed into slot 0 by `add_app`, because the replace scan compares each
existing application with itself (`app.may_replace_app(app)`, always
true) instead of with the new one. -/
theorem c1_slot_stability_violated :
    appAlphaInactive.active = false
    ∧ appBetaInactive.active = false
    ∧ Application.identity w0 appBetaNew = Application.identity w0 appBetaInactive
    ∧ Application.identity w0 appBetaNew ≠ Application.identity w0 appAlphaInactive
    ∧ c1State.add_app w0 2 = .ok ({ c1State with app_list := [2, 1] }, false) :=
  ⟨rfl, rfl, rfl, by decide, rfl⟩

/-- C2 (failing evaluation): reconciling one mixer snapshot of nine
distinct live streams makes the slot table grow to length 9, exceeding
the capacity 8, with every slot active: the capacity guard in `add_app`
fires only at `len > 8` and its inner `not app.active` test never holds,
so the code appends instead of refusing a slot. -/
theorem c2_capacity_exceeded :
    (initialState.update_sink_inputs w0 snap9).map (fun r => r.1.app_list.length)
      = .ok 9
    ∧ (initialState.update_sink_inputs w0 snap9).map
        (fun r => r.1.app_list.all (fun id => (r.1.heap.getD id default).active))
      = .ok true :=
  ⟨rfl, rfl⟩

/-- C3 (failing evaluation): calling `play_or_pause` with no slot index
while no currently playing application is tracked is not a no-op: the
source runs `self.playing_app.play_or_pause()` on `None`, raising
`AttributeError` (modelled by `.error ()`). -/
theorem c3_play_or_pause_none_raises :
    initialState.playing_app = none
    ∧ initialState.play_or_pause w0 none = .error () :=
  ⟨rfl, rfl⟩

/-- C4 (failing evaluation): reconcile change reporting is not
idempotent. With one mixer stream and no media sessions, the first
`check` reports a change and so does a second `check` on identical
snapshots, because `update_media_players` compares the recomputed
playback-status list against `self.playback_status_list` but never stores
it back, so the comparison is always against the initial empty list. -/
theorem c4_reconcile_not_idempotent :
    ((initialState.check w0 [si0] []).bind fun r =>
        (r.1.check w0 [si0] []).map fun r2 => (r.2, r2.2)) = .ok (true, true) :=
  rfl

/-- C5 (failing evaluation): for a slot index past the end of the slot
table, `set_volume` is the claimed silent no-op (the `IndexError` is
caught), but `play_or_pause` with the same out-of-range index raises an
uncaught `IndexError` at `self.app_list[app]` (modelled by `.error ()`). -/
theorem c5_out_of_range_divergence :
    c1State.app_list.length = 2
    ∧ c1State.set_volume 7 (1 / 2) = (c1State, [])
    ∧ c1State.play_or_pause w0 (some 7) = .error () :=
  ⟨rfl, rfl, rfl⟩

/-- C6 counterexample: `name()` on an application with no backing
references and no cached identity does not return a string — it raises
(`app_names.pop()` on an empty set raises `KeyError`, modelled by
`.error ()`). -/
theorem c6_counterexample : Application.name w0 noBackingApp = .error () := rfl

/-- C6 amended: `name()` returns a string without raising exactly when the
application has a media session whose identity read succeeds or is
cached, or has no media session but at least one recorded mixer stream;
with a media session but no readable and no cached identity it returns
Python `None` (no exception, but no string); it raises exactly when it
has neither a media session nor any recorded stream. -/
theorem c6_name_amended (w : World) (a : Application) :
    ((∃ s, a.name w = .ok (some s)) ↔
      ((∃ uri, a.mpris_app = some uri
          ∧ ((w.identityOf uri).isSome ∨ a.cached_mpris_identity.isSome))
        ∨ (a.mpris_app = none ∧ a.pa_sink_inputs ≠ [])))
    ∧ (a.name w = .error () ↔ (a.mpris_app = none ∧ a.pa_sink_inputs = [])) := by
  obtain ⟨k, pa, act, ma, mp, cache⟩ := a
  cases ma with
  | some uri =>
    simp only [Application.name, Application.mprisIdentityRead]
    cases h : w.identityOf uri <;> cases cache <;> simp [h]
  | none =>
    cases pa with
    | nil => simp [Application.name, distinctList]
    | cons x xs =>
      have h1 : distinctList ((x :: xs).map SinkInput.appName) ≠ [] := by
        simp only [List.map_cons]
        exact distinctList_ne_nil _ _
      obtain ⟨y, ys, hy⟩ := List.exists_cons_of_ne_nil h1
      simp only [Application.name, hy]
      rcases ys with _ | ⟨y2, ys2⟩
      · rcases hm : distinctList ((x :: xs).map SinkInput.mediaName)
          with _ | ⟨m, ms⟩
        · simp
        · rcases ms with _ | ⟨m2, ms2⟩ <;> simp
      · simp

/-- C7: inbound decode. On the channel-16 control-change status, control
number `16 + k` (the k-th fader, `0 ≤ k ≤ 7`) with value `v` decodes to a
volume-set for slot `k` at level `v / 127` — in particular value 0 gives
level 0 and value 127 gives level 1 — a control number outside `FADERS`
never produces a volume-set, and the `PLAY` control produces the
argument-less play-or-pause exactly when its value is 1. -/
theorem c7_inbound_decode (k v c u : Nat) (hk : k ≤ 7) (hv : v ≤ 127)
    (hc : ¬ FADERS.contains c) (hu : u ≤ 127) :
    callbackDecode [CHAN_16_CC, 16 + k, v] = .volumeSet k ((v : Rat) / 127)
    ∧ callbackDecode [CHAN_16_CC, 16, 0] = .volumeSet 0 0
    ∧ callbackDecode [CHAN_16_CC, 23, 127] = .volumeSet 7 1
    ∧ (∀ slot q, callbackDecode [CHAN_16_CC, c, u] ≠ .volumeSet slot q)
    ∧ (callbackDecode [CHAN_16_CC, PLAY, u] = .playPause ↔ u = 1) := by
  refine ⟨?_, ?_, ?_, ?_, ?_⟩
  · interval_cases k <;> rfl
  · have h0 : callbackDecode [CHAN_16_CC, 16, 0]
        = .volumeSet 0 (((0 : Nat) : Rat) / 127) := rfl
    rw [h0]
    norm_num
  · have h7 : callbackDecode [CHAN_16_CC, 23, 127]
        = .volumeSet 7 (((127 : Nat) : Rat) / 127) := rfl
    rw [h7]
    norm_num
  · intro slot q
    have hred : callbackDecode [CHAN_16_CC, c, u]
        = if FADERS.contains c then
            .volumeSet (c - FADERS.headD 0) ((u : Rat) / 127)
          else if c = PLAY ∧ u = 1 then .playPause else .noAction := rfl
    rw [hred, if_neg hc]
    split <;> simp
  · have hred : callbackDecode [CHAN_16_CC, PLAY, u]
        = if PLAY = PLAY ∧ u = 1 then .playPause else .noAction := rfl
    by_cases h1 : u = 1
    · subst h1
      simp [hred]
    · rw [hred, if_neg (by simp [h1])]
      simp [h1]

/-- C7 witness: the decode theorem applied at fader 5 with value 64, the
non-fader control 40, and play-button value 64. -/
theorem c7_inbound_decode_witness :
    callbackDecode [CHAN_16_CC, 16 + 5, 64] = .volumeSet 5 ((64 : Rat) / 127)
    ∧ callbackDecode [CHAN_16_CC, 16, 0] = .volumeSet 0 0
    ∧ callbackDecode [CHAN_16_CC, 23, 127] = .volumeSet 7 1
    ∧ (∀ slot q, callbackDecode [CHAN_16_CC, 40, 64] ≠ .volumeSet slot q)
    ∧ (callbackDecode [CHAN_16_CC, PLAY, 64] = .playPause ↔ 64 = 1) :=
  c7_inbound_decode 5 64 40 64 (by decide) (by decide) (by decide) (by decide)

/-- C8: every slot field rendered by `set_application_list` is exactly 8
characters wide: the name column of an active slot is the name truncated
or padded to width 8 for a name of any length, an inactive slot renders
as the fixed 8-dash placeholder regardless of its name, a missing
playback status renders as exactly 8 blanks, and a present status is
centred in width 8. -/
theorem c8_fixed_width (b : Bool) (nm : List Char) (st : Option PlaybackStatus) :
    (renderSlotName b nm).length = 8
    ∧ renderSlotName false nm = "--------".toList
    ∧ renderSlotStatus none = List.replicate 8 ' '
    ∧ (renderSlotStatus st).length = 8 := by
  refine ⟨?_, rfl, by decide, ?_⟩
  · cases b
    · rfl
    · simp only [renderSlotName, if_pos, ljust8, List.length_append,
        List.length_replicate, List.length_take]
      omega
  · cases st with
    | none => rfl
    | some v => cases v <;> rfl

/-- C9 (failing evaluation): `Applications.set_volume` on an in-range
slot holding an inactive application still reaches the delegated
`app_instance.set_volume(...)` call, because the guard
`if app_instance.active:` tests the bound method object, which is always
truthy; no external volume call results, since an inactive application
has no active streams and no media session. -/
theorem c9_inactive_slot_still_delegates :
    appBetaInactive.active = false
    ∧ c9State.set_volume_delegates 0 = true
    ∧ c9State.set_volume 0 (1 / 2) = (c9State, []) :=
  ⟨rfl, rfl, rfl⟩

/-- C10: detaching a mixer stream (`Application.remove_sink_input_index`)
removes the index only from the `active_sink_inputs` map;
`pa_sink_inputs` — the list `name()` reads — keeps every stream ever
attached, so `name()` and hence `identity()` are computed over all
historical streams and are unchanged by the removal. -/
theorem c10_detach_keeps_name_history (w : World) (a : Application) (i : Nat) :
    (a.remove_sink_input_index i).pa_sink_inputs = a.pa_sink_inputs
    ∧ (a.remove_sink_input_index i).active_sink_inputs
        = a.active_sink_inputs.filter (fun p => p.1 != i)
    ∧ (a.remove_sink_input_index i).name w = a.name w
    ∧ (a.remove_sink_input_index i).identity w = a.identity w :=
  ⟨rfl, rfl, rfl, rfl⟩

end Pafaders
